import Mathlib

/-!
Shallow embedding of the question-generation / answer-evaluation core of
`src/backend/server.js` (AI-Mock-Interview backend), together with proofs
about the claims on its specification.

Conventions of the embedding:
* JavaScript strings are Lean `String`s; a possibly-`undefined` string value
  (e.g. a missing request-body field) is an `Option String`.
* JavaScript numbers that hold integer values are `Int`/`Nat`; `Math.round`
  on a nonnegative rational is modelled exactly over `ℚ`, and the
  floating-point cosine-similarity path is modelled exactly over `ℝ`.
* A `throw`/rejected promise is `Except.error`; external collaborators
  (the axios remote call, `JSON.parse`, the `@xenova/transformers`
  `pipeline` loader and extractor) are parameters of the embedded
  functions, so theorems quantify over every behaviour of them.
* `Date.now()` (milliseconds) is an explicit `nowMs : Nat` parameter, and
  `Math.random()`-derived values are explicit parameters (`verbIdx`, `seed`).
-/

namespace AIMock

/-- JavaScript `Math.round` on an exact rational (`Math.round x = ⌊x + 1/2⌋`,
rounding halves toward positive infinity). -/
def jsRoundQ (q : ℚ) : ℤ := ⌊q + 1/2⌋

/-- JavaScript truthiness of a possibly-undefined string: `undefined` and the
empty string are falsy. -/
def jsFalsyStr : Option String → Bool
  | none => true
  | some s => s == ""

/-- JavaScript `a || b` for a possibly-undefined string `a` with default `b`. -/
def jsOr (a : Option String) (b : String) : String :=
  match a with
  | none => b
  | some s => if s == "" then b else s

/-- JavaScript `a || b` for a present string `a` with default `b`. -/
def jsStrOr (a b : String) : String := if a == "" then b else a

/-- Result shape of `generateQuestion` (server.js lines 129-146): the
`question` / `ideal_answer` pair. -/
structure QuestionResult where
  question : String
  ideal_answer : String
deriving DecidableEq

/-- Result shape of `evaluateAnswer` / `fallbackEvaluation`
(server.js lines 203, 246, 259, 277): `feedback` text and integer `score`. -/
structure EvalResult where
  feedback : String
  score : ℤ
deriving DecidableEq

/-! ## The EmbeddingPipeline singleton (server.js lines 39-64) -/

/-- Mutable static state of `class EmbeddingPipeline`: `instance_` models
`this.instance` (`null` = `none`), plus `this.loading` and `this.loadError`
(an error is modelled by its message string). -/
structure PipelineState (H : Type) where
  instance_ : Option H
  loading : Bool
  loadError : Option String
deriving DecidableEq

/-- The guard of `getInstance` (line 47):
`this.instance === null && !this.loading` — exactly when a new load attempt
is started. -/
def startsLoad {H : Type} (s : PipelineState H) : Bool :=
  s.instance_.isNone && !s.loading

/-- `EmbeddingPipeline.getInstance()` (lines 46-63), with the outcome of the
`pipeline(...)` load call passed in as `outcome` (success yields a handle,
failure an error message).  Returns the value `return this.instance` produces
together with the post-call static state (the `finally` always clears
`loading`). -/
def getInstance {H : Type} (outcome : Except String H) (s : PipelineState H) :
    Option H × PipelineState H :=
  if startsLoad s then
    match outcome with
    | .ok h => (some h, ⟨some h, false, none⟩)
    | .error e => (none, ⟨none, false, some e⟩)
  else (s.instance_, s)

/-- The state after a load attempt that completed with failure:
`instance` is `null`, `loading` was reset by `finally`, `loadError` records
the error (lines 54-60). -/
def failedState (H : Type) (e : String) : PipelineState H := ⟨none, false, some e⟩

/-! ## generateQuestion (server.js lines 73-199) -/

/-- Errors that can be thrown inside the `try` block of `generateQuestion`
and caught at line 155.  `httpError` is an axios rejection carrying the
optional HTTP status of `error.response` (`none` for a network error or
timeout); `unexpectedFormat` is the `throw new Error("Unexpected response
format from Hugging Face")` at line 123; `jsonError` is a `JSON.parse`
failure at line 131; `referenceError` is the `ReferenceError` raised at line
149 by the reference to the undeclared identifier `previousQuestions`. -/
inductive JsError where
  | httpError (status : Option Nat)
  | unexpectedFormat
  | jsonError
  | referenceError
deriving DecidableEq

/-- `error.response?.status` as read by the catch handler (line 162): only an
axios HTTP rejection carries a status. -/
def errStatus : JsError → Option Nat
  | .httpError st => st
  | _ => none

/-- Shape of `response.data` from the remote call (lines 117-124): either an
array whose first element may exist and may carry `generated_text`, or a
plain object with an optional `generated_text` field. -/
inductive ResponseData where
  | arr (first : Option (Option String))
  | obj (generated_text : Option String)

/-- Lines 117-124: extract `textData` from `response.data`.
Array: `response.data[0]?.generated_text || ""` (never throws).
Object: if `response.data.generated_text` is truthy use it, otherwise
`throw new Error("Unexpected response format from Hugging Face")`. -/
def extractText : ResponseData → Except JsError String
  | .arr first => .ok (jsOr (first.bind id) "")
  | .obj gt =>
    match gt with
    | some t => if t == "" then .error JsError.unexpectedFormat else .ok t
    | none => .error JsError.unexpectedFormat

/-- The character `\x7b`. -/
def openBraceChar : Char := Char.ofNat 123

/-- The character `\x7d`. -/
def closeBraceChar : Char := Char.ofNat 125

/-- Collect characters up to and including the first `\x7d`, or `none` if
there is none. -/
def takeToClose : List Char → Option (List Char)
  | [] => none
  | c :: rest =>
    if c = closeBraceChar then some [c]
    else (takeToClose rest).map (fun cs => c :: cs)

/-- Scan for the first `\x7b` that is followed (anywhere later) by a `\x7d`;
return the span from it through the first subsequent `\x7d`.  If the first
`\x7b` has no later `\x7d` then no later `\x7b` has one either, so the
whole match fails. -/
def firstMatchAux : List Char → Option (List Char)
  | [] => none
  | c :: rest =>
    if c = openBraceChar then
      match takeToClose rest with
      | some body => some (c :: body)
      | none => none
    else firstMatchAux rest

/-- Line 127: `textData.match(/\x7b[\s\S]*?\x7d/)` — the lazily-quantified
regex matches the span from the first opening brace to the first closing
brace after it, if any. -/
def firstJsonMatch (s : String) : Option String :=
  (firstMatchAux s.data).map (fun cs => String.mk cs)

/-- Drop leading whitespace characters. -/
def dropLeadingWS : List Char → List Char
  | [] => []
  | c :: rest => if c.isWhitespace then dropLeadingWS rest else c :: rest

/-- JavaScript `String.prototype.trim`: remove leading and trailing
whitespace.  (Implemented over the character list so that it reduces in the
kernel; the core `String.trim` is definitionally opaque.) -/
def jsTrim (s : String) : String :=
  String.mk (dropLeadingWS (dropLeadingWS s.data).reverse).reverse

/-- JavaScript `String.prototype.toLowerCase` over the character list. -/
def jsToLower (s : String) : String :=
  String.mk (s.data.map Char.toLower)

/-- Result of a successful `JSON.parse` as consumed by lines 132-135: only
the `question` and `ideal_answer` fields matter, each possibly absent (or
falsy, which the `||` treats the same way for the empty string). -/
structure JsObj where
  question : Option String
  ideal_answer : Option String

/-- Lines 126-146: build `result` from `textData`.  If a brace-delimited span
is found, `JSON.parse` it (a parse failure throws, modelled by the
`jsonParse` collaborator returning `none`) and take the two fields with
`||` defaults; otherwise use the raw trimmed text as the question with the
generic ideal-answer instruction. -/
def parseStage (topic subTopic : String) (jsonParse : String → Option JsObj)
    (textData : String) : Except JsError QuestionResult :=
  match firstJsonMatch textData with
  | some m =>
    match jsonParse m with
    | some parsed =>
      .ok ⟨jsOr parsed.question "Could not parse question",
           jsOr parsed.ideal_answer "N/A"⟩
    | none => .error JsError.jsonError
  | none =>
    .ok ⟨jsStrOr (jsTrim textData)
          ("What are the key concepts of " ++ subTopic ++ " in " ++ topic ++ "?"),
         "Please provide a comprehensive answer covering the main concepts."⟩

/-- The remainder of the `try` block after the remote call resolved
(lines 114-154): extract `textData`, build `result`, then execute line 149,
`previousQuestions.push(result.question)`.  `previousQuestions` is declared
nowhere in the file (the only declared history is `recentQuestions`, line
71), so this reference raises a `ReferenceError` before `return result` at
line 154 can execute. -/
def handleResponse (topic subTopic : String) (jsonParse : String → Option JsObj)
    (data : ResponseData) : Except JsError QuestionResult :=
  match extractText data with
  | .error e => .error e
  | .ok textData =>
    match parseStage topic subTopic jsonParse textData with
    | .error e => .error e
    | .ok result =>
      let _ := result.question
      .error JsError.referenceError

/-- The five canned fallback templates (lines 171-192), parameterized only by
`topic` and `subTopic`. -/
def fallbackQuestions (topic subTopic : String) : List QuestionResult :=
  [⟨"Explain the concept of " ++ subTopic ++ " in " ++ topic ++
      " and its practical applications.",
    subTopic ++ " is an important concept in " ++ topic ++
      ". It involves understanding the core principles and being able to apply them in real-world scenarios."⟩,
   ⟨"What are the main advantages and disadvantages of using " ++ subTopic ++
      " in " ++ topic ++ "?",
    "When considering " ++ subTopic ++
      ", it\u0027s important to weigh both benefits and drawbacks in the context of " ++
      topic ++ "."⟩,
   ⟨"Can you describe a real-world scenario where " ++ subTopic ++
      " would be particularly useful in " ++ topic ++ "?",
    subTopic ++ " can be applied in various scenarios within " ++ topic ++
      ", particularly when specific requirements need to be met."⟩,
   ⟨"How does " ++ subTopic ++ " compare to alternative approaches in " ++
      topic ++ "?",
    "Understanding the trade-offs between " ++ subTopic ++
      " and other approaches is crucial for making informed decisions in " ++
      topic ++ "."⟩,
   ⟨"What are common mistakes developers make when implementing " ++ subTopic ++
      " in " ++ topic ++ "?",
    "Being aware of common pitfalls helps in implementing " ++ subTopic ++
      " correctly in " ++ topic ++ " projects."⟩]

/-- The fixed result returned when the remote service reports status 503
(lines 162-168). -/
def loadingResult : QuestionResult :=
  ⟨"The AI model is currently loading. Please try again in a moment.", "N/A"⟩

/-- The catch handler of `generateQuestion` (lines 155-198): a 503 from the
remote service yields `loadingResult`; any other error selects one of the
five fallback templates by `Math.floor(Date.now() / 1000) %
fallbackQuestions.length`. -/
def handleError (topic subTopic : String) (e : JsError) (nowMs : Nat) :
    QuestionResult :=
  if errStatus e = some 503 then loadingResult
  else
    (fallbackQuestions topic subTopic).get
      ⟨(nowMs / 1000) % (fallbackQuestions topic subTopic).length,
       Nat.mod_lt _ (by simp [fallbackQuestions])⟩

/-- The fixed verb list of line 76. -/
def variations : List String :=
  ["Create", "Generate", "Provide", "Design", "Formulate"]

/-- Lines 74-84: prompt construction from the two random draws (`verbIdx`
selects the verb, `seed` is the numeric question id). -/
def buildPrompt (topic subTopic difficulty : String) (verbIdx seed : Nat) :
    String :=
  "<start_of_turn>user\n" ++
    variations.getD (verbIdx % variations.length) "" ++ " a unique " ++
    difficulty ++ " level interview question about " ++ subTopic ++ " in " ++
    topic ++
    ". Make it different from common questions. Return your response in valid JSON format with exactly two fields: \"question\" and \"ideal_answer\". Question ID: " ++
    toString (seed % 10000) ++ "<end_of_turn>\n<start_of_turn>model\n"

/-- Behaviour of the single axios call (lines 87-112): it either resolves
with a `response.data`, or rejects with an error carrying the optional HTTP
status (`none` for the 30s timeout or a network failure). -/
inductive RemoteOutcome where
  | success (data : ResponseData)
  | failure (status : Option Nat)

/-- `generateQuestion(topic, subTopic, difficulty)` (lines 73-199).  The two
random draws, the `JSON.parse` collaborator, the remote-call behaviour and
the current time are explicit parameters. -/
def generateQuestion (topic subTopic difficulty : String) (verbIdx seed : Nat)
    (jsonParse : String → Option JsObj) (outcome : RemoteOutcome)
    (nowMs : Nat) : QuestionResult :=
  let _prompt := buildPrompt topic subTopic difficulty verbIdx seed
  let tryResult : Except JsError QuestionResult :=
    match outcome with
    | .failure st => .error (JsError.httpError st)
    | .success data => handleResponse topic subTopic jsonParse data
  match tryResult with
  | .ok r => r
  | .error e => handleError topic subTopic e nowMs

/-- Line 71: `const recentQuestions = new Map()` — declared with this initial
value and never written or read anywhere in the file. -/
def recentQuestions : List (String × List String) := []

/-- State-passing form of one `generateQuestion` call with the
`recentQuestions` map threaded through: since no statement of
`generateQuestion` (or of any other function) mentions `recentQuestions`,
the map component passes through unchanged. -/
def generateQuestionWithHistory (hist : List (String × List String))
    (topic subTopic difficulty : String) (verbIdx seed : Nat)
    (jsonParse : String → Option JsObj) (outcome : RemoteOutcome)
    (nowMs : Nat) : QuestionResult × List (String × List String) :=
  (generateQuestion topic subTopic difficulty verbIdx seed jsonParse outcome nowMs,
   hist)

/-! ## fallbackEvaluation (server.js lines 254-278) -/

/-- A JavaScript word character (`\w` is `[A-Za-z0-9_]`). -/
def isWordChar (c : Char) : Bool := c.isAlphanum || c = '_'

/-- Split a character list into maximal runs of word characters (the `acc`
argument carries the current run, reversed). -/
def wordRuns : List Char → List Char → List (List Char)
  | [], acc => if acc.isEmpty then [] else [acc.reverse]
  | c :: rest, acc =>
    if isWordChar c then wordRuns rest (c :: acc)
    else if acc.isEmpty then wordRuns rest []
    else acc.reverse :: wordRuns rest []

/-- Lines 255-256: `s.toLowerCase().match(/\b\w+\b/g) || []` — the list of
lowercased word tokens, in order, duplicates kept. -/
def wordTokens (s : String) : List String :=
  (wordRuns (jsToLower s).data []).map String.mk

/-- `fallbackEvaluation(userAnswer, idealAnswer)` (lines 254-278): keyword
overlap of the ideal answer's tokens (with duplicates) against the set of
user tokens, rounded to a percentage, with three feedback bands. -/
def fallbackEvaluation (userAnswer idealAnswer : String) : EvalResult :=
  let userWords := wordTokens userAnswer
  let idealWords := wordTokens idealAnswer
  if idealWords.length = 0 then ⟨"Could not evaluate answer.", 0⟩
  else
    -- `matches` in the source; `matches` is a reserved word in Lean
    let matchCount := (idealWords.filter (fun w => userWords.contains w)).length
    let score : ℤ := jsRoundQ ((matchCount : ℚ) / (idealWords.length : ℚ) * 100)
    let feedback :=
      "**Estimated Score: " ++ toString score ++ "%** (Using fallback evaluation)\n\n" ++
      (if score > 70 then "Good! Your answer covers many key concepts."
       else if score > 40 then
         "You\u0027re on the right track, but could expand more on key concepts."
       else
         "Your answer needs more detail. Review the ideal answer for key points.")
    ⟨feedback, score⟩

/-! ## The embedding path of evaluateAnswer (server.js lines 201-251), with
the vector helpers of the `@xenova/transformers` library modelled exactly
over the reals. -/

/-- The library's `dot(arr1, arr2)`: sum over the indices of the first
array. -/
noncomputable def dotp (a b : List ℝ) : ℝ :=
  ∑ i in Finset.range a.length, a.getD i 0 * b.getD i 0

/-- The library's `magnitude(arr)`: Euclidean norm. -/
noncomputable def magnitude (a : List ℝ) : ℝ :=
  Real.sqrt (∑ i in Finset.range a.length, a.getD i 0 ^ 2)

/-- The library's `cos_sim(arr1, arr2)` (used at line 227): dot product over
the product of magnitudes. -/
noncomputable def cos_sim (a b : List ℝ) : ℝ :=
  dotp a b / (magnitude a * magnitude b)

/-- JavaScript `Math.round` over an exact real. -/
noncomputable def jsRound (x : ℝ) : ℤ := ⌊x + 1/2⌋

open Classical in
/-- Lines 231-244: the similarity feedback text, banded on the raw cosine
similarity, prefixed by the integer percentage. -/
noncomputable def similarityFeedback (scorePercent : ℤ) (score : ℝ) : String :=
  "**Similarity Score: " ++ toString scorePercent ++ "%**\n\n" ++
  (if score > 0.8 then
    "Excellent! Your answer is very comprehensive and closely matches the key points."
   else if score > 0.6 then
    "Good job! You have the right idea, but you might be missing a few key details."
   else if score > 0.4 then
    "You\u0027re on the right track, but your answer is quite different. Try to be more specific."
   else
    "Your answer seems to be missing the main points. Let\u0027s review the ideal answer.")

/-- The extractor handle: called on a string (with mean pooling and
normalization) it either resolves with a vector or rejects. -/
abbrev Extractor := String → Except String (List ℝ)

/-- `evaluateAnswer(userAnswer, idealAnswer)` (lines 201-251).  The static
`EmbeddingPipeline` state and the behaviour of a fresh load attempt are
explicit (`s`, `loadOutcome`); the result carries the post-call pipeline
state.  A rejection from either extractor call is caught at line 247 and
delegates to `fallbackEvaluation`. -/
noncomputable def evaluateAnswer (loadOutcome : Except String Extractor)
    (s : PipelineState Extractor) (userAnswer idealAnswer : Option String) :
    EvalResult × PipelineState Extractor :=
  if jsFalsyStr userAnswer || jsFalsyStr idealAnswer || idealAnswer == some "N/A" then
    (⟨"Could not evaluate answer.", 0⟩, s)
  else
    let u := userAnswer.getD ""
    let i := idealAnswer.getD ""
    let r := getInstance loadOutcome s
    match r.1 with
    | none => (fallbackEvaluation u i, r.2)
    | some extractor =>
      match extractor u, extractor i with
      | .ok userEmbedding, .ok idealEmbedding =>
        let score := cos_sim userEmbedding idealEmbedding
        let scorePercent := jsRound (score * 100)
        (⟨similarityFeedback scorePercent score, scorePercent⟩, r.2)
      | _, _ => (fallbackEvaluation u i, r.2)

/-! ## Helper lemmas about the generation pipeline -/

theorem append_ne_empty_right (a : String) {b : String} (h : b ≠ "") :
    a ++ b ≠ "" := by
  intro hc
  apply h
  have hlen := congrArg String.length hc
  rw [String.length_append] at hlen
  have h0 : ("" : String).length = 0 := rfl
  rw [h0] at hlen
  have hb : b.length = 0 := by omega
  cases b with
  | mk data => cases data with
    | nil => rfl
    | cons c cs => simp [String.length] at hb

theorem extractText_error {d : ResponseData} {e : JsError}
    (h : extractText d = Except.error e) : e = JsError.unexpectedFormat := by
  cases d with
  | arr first => simp [extractText] at h
  | obj gt =>
    cases gt with
    | none => simp [extractText] at h; exact h.symm
    | some t =>
      by_cases ht : t == ""
      · simp [extractText, ht] at h; exact h.symm
      · simp [extractText, ht] at h

theorem parseStage_error {t s : String} {jp : String → Option JsObj}
    {td : String} {e : JsError} (h : parseStage t s jp td = Except.error e) :
    e = JsError.jsonError := by
  unfold parseStage at h
  cases hm : firstJsonMatch td with
  | none => rw [hm] at h; simp at h
  | some m =>
    rw [hm] at h
    cases hj : jp m with
    | none => simp [hj] at h; exact h.symm
    | some parsed => simp [hj] at h

/-- Every execution of the try-block tail after a resolved remote call ends
in a thrown error that carries no HTTP status: either the response shape is
unexpected, or `JSON.parse` fails, or the `previousQuestions` reference
raises. -/
theorem handleResponse_error (t s : String) (jp : String → Option JsObj)
    (d : ResponseData) :
    ∃ e, handleResponse t s jp d = Except.error e ∧ errStatus e = none := by
  cases h1 : extractText d with
  | error e =>
    refine ⟨e, ?_, ?_⟩
    · simp [handleResponse, h1]
    · rw [extractText_error h1]; rfl
  | ok td =>
    cases h2 : parseStage t s jp td with
    | error e2 =>
      refine ⟨e2, ?_, ?_⟩
      · simp [handleResponse, h1, h2]
      · rw [parseStage_error h2]; rfl
    | ok r =>
      exact ⟨JsError.referenceError, by simp [handleResponse, h1, h2], rfl⟩

/-- The fallback template selected by the catch handler at time `nowMs`:
index `Math.floor(Date.now() / 1000) % fallbackQuestions.length`. -/
def selectedFallback (topic subTopic : String) (nowMs : Nat) : QuestionResult :=
  (fallbackQuestions topic subTopic).get
    ⟨(nowMs / 1000) % (fallbackQuestions topic subTopic).length,
     Nat.mod_lt _ (by simp [fallbackQuestions])⟩

theorem handleError_eq (t s : String) (e : JsError) (now : Nat) :
    handleError t s e now =
      if errStatus e = some 503 then loadingResult else selectedFallback t s now :=
  rfl

theorem handleError_not503 {e : JsError} (t s : String) (now : Nat)
    (h : errStatus e ≠ some 503) :
    handleError t s e now = selectedFallback t s now := by
  rw [handleError_eq, if_neg h]

theorem generateQuestion_failure_eq (t s diff : String) (vi seed : Nat)
    (jp : String → Option JsObj) (st : Option Nat) (now : Nat) :
    generateQuestion t s diff vi seed jp (RemoteOutcome.failure st) now =
      handleError t s (JsError.httpError st) now :=
  rfl

/-- On a resolved remote call the try block always throws (with no HTTP
status), so the result is always the time-selected canned template. -/
theorem generateQuestion_success_eq (t s diff : String) (vi seed : Nat)
    (jp : String → Option JsObj) (d : ResponseData) (now : Nat) :
    generateQuestion t s diff vi seed jp (RemoteOutcome.success d) now =
      selectedFallback t s now := by
  obtain ⟨e, he, hst⟩ := handleResponse_error t s jp d
  have hgen : generateQuestion t s diff vi seed jp (RemoteOutcome.success d) now =
      (match handleResponse t s jp d with
       | Except.ok r => r
       | Except.error e2 => handleError t s e2 now) := rfl
  rw [hgen, he]
  exact handleError_not503 t s now (by rw [hst]; exact fun hc => by cases hc)

theorem selectedFallback_mem (t s : String) (now : Nat) :
    selectedFallback t s now ∈ fallbackQuestions t s :=
  List.get_mem _ _ _

theorem mem_fallback_nonempty (t s : String) :
    ∀ q ∈ fallbackQuestions t s, q.question ≠ "" ∧ q.ideal_answer ≠ "" := by
  intro q hq
  simp only [fallbackQuestions, List.mem_cons, List.mem_singleton,
    List.not_mem_nil, or_false] at hq
  rcases hq with h | h | h | h | h <;> subst h <;>
    exact ⟨append_ne_empty_right _ (by decide), append_ne_empty_right _ (by decide)⟩

theorem selectedFallback_congr (t s : String) {n n2 : Nat}
    (h : n / 1000 = n2 / 1000) :
    selectedFallback t s n = selectedFallback t s n2 := by
  have hidx : n / 1000 % (fallbackQuestions t s).length =
      n2 / 1000 % (fallbackQuestions t s).length := by rw [h]
  unfold selectedFallback
  congr 1
  exact Fin.ext hidx

/-! ## Claim theorems: question generation -/

/-- C1: for every valid topic and subTopic (non-empty strings), any
difficulty, and every behaviour of the remote call (resolved with any data
shape, or rejected with any HTTP status, a timeout or a network error),
every behaviour of `JSON.parse`, every random draw and every time,
`generateQuestion` returns a `QuestionResult` whose `question` and
`ideal_answer` are non-empty strings; the embedded function is total, so no
error escapes to the caller. -/
theorem generateQuestion_never_fails (topic subTopic difficulty : String)
    (ht : topic ≠ "") (hs : subTopic ≠ "") (vi seed : Nat)
    (jp : String → Option JsObj) (outcome : RemoteOutcome) (now : Nat) :
    (generateQuestion topic subTopic difficulty vi seed jp outcome now).question ≠ "" ∧
    (generateQuestion topic subTopic difficulty vi seed jp outcome now).ideal_answer ≠ "" := by
  cases outcome with
  | success d =>
    rw [generateQuestion_success_eq]
    exact mem_fallback_nonempty _ _ _ (selectedFallback_mem topic subTopic now)
  | failure st =>
    rw [generateQuestion_failure_eq, handleError_eq]
    by_cases h503 : errStatus (JsError.httpError st) = some 503
    · rw [if_pos h503]
      exact ⟨by decide, by decide⟩
    · rw [if_neg h503]
      exact mem_fallback_nonempty _ _ _ (selectedFallback_mem topic subTopic now)

/-- Witness for C1: concrete non-empty topic and subTopic, a timed-out
remote call. -/
theorem generateQuestion_never_fails_witness :
    (("Data Structures" : String) ≠ "" ∧ ("Hashing" : String) ≠ "") ∧
    ((generateQuestion "Data Structures" "Hashing" "easy" 0 0 (fun _ => none)
        (RemoteOutcome.failure none) 0).question ≠ "" ∧
     (generateQuestion "Data Structures" "Hashing" "easy" 0 0 (fun _ => none)
        (RemoteOutcome.failure none) 0).ideal_answer ≠ "") :=
  ⟨⟨by decide, by decide⟩,
   generateQuestion_never_fails "Data Structures" "Hashing" "easy" (by decide)
     (by decide) 0 0 (fun _ => none) (RemoteOutcome.failure none) 0⟩

/-- C2 counterexample: the claim is false on the code.  After a load attempt
that completed with failure (`instance` null, `loadError` set, `loading`
reset by the `finally`), the guard `this.instance === null && !this.loading`
holds again, so the next `getInstance()` call starts a new load attempt —
and when that retry succeeds it even returns a non-null handle rather than
null. -/
theorem getInstance_retries_after_failure :
    startsLoad (failedState Unit "load failed") = true ∧
    (getInstance (Except.ok ()) (failedState Unit "load failed")).1 = some () ∧
    (getInstance (Except.ok ()) (failedState Unit "load failed")).2.instance_ =
      some () :=
  ⟨rfl, rfl, rfl⟩

/-- C2 (amended): while a load is in flight (`loading = true`) no second
attempt starts and the current (possibly null) instance is returned
unchanged; once `Ready` (`instance` non-null) the cached handle is returned
with no further attempt; but the `Failed` state is **not** terminal: it
satisfies the reload guard, so every subsequent call starts a fresh load
attempt whose outcome (success or another failure) determines the returned
value. -/
theorem getInstance_state_machine {H : Type} (e : String)
    (outcome : Except String H) (s : PipelineState H) :
    (s.loading = true → getInstance outcome s = (s.instance_, s)) ∧
    (∀ h : H, s.instance_ = some h → getInstance outcome s = (some h, s)) ∧
    startsLoad (failedState H e) = true ∧
    getInstance outcome (failedState H e) =
      (match outcome with
       | Except.ok h => (some h, ⟨some h, false, none⟩)
       | Except.error e2 => (none, ⟨none, false, some e2⟩)) := by
  refine ⟨?_, ?_, rfl, ?_⟩
  · intro hl
    simp [getInstance, startsLoad, hl]
  · intro h hh
    simp [getInstance, startsLoad, hh]
  · cases outcome <;> rfl

/-- Witness for C2 (amended): a loading state and a ready state, each left
untouched. -/
theorem getInstance_state_machine_witness :
    getInstance (Except.error "x") (⟨none, true, none⟩ : PipelineState Unit) =
      (none, ⟨none, true, none⟩) ∧
    getInstance (Except.error "x") (⟨some (), false, none⟩ : PipelineState Unit) =
      (some (), ⟨some (), false, none⟩) :=
  ⟨(getInstance_state_machine "e" (Except.error "x") ⟨none, true, none⟩).1 rfl,
   (getInstance_state_machine "e" (Except.error "x")
      ⟨some (), false, none⟩).2.1 () rfl⟩

/-- C3 (code-bug evidence): for the spec's example response text (no JSON
braces), the parse stage itself does produce the raw-trimmed-text question
with the generic ideal answer — but line 149
(`previousQuestions.push(result.question)`) raises a `ReferenceError`
before `return result` executes, so `generateQuestion` actually returns the
time-selected canned template, which differs from the parsed result. -/
theorem rawTextResponse_diverges :
    parseStage "Data Structures" "Hashing" (fun _ => none)
        "Sure! Here\u0027s a question: What is a hash table?" =
      Except.ok ⟨"Sure! Here\u0027s a question: What is a hash table?",
        "Please provide a comprehensive answer covering the main concepts."⟩ ∧
    handleResponse "Data Structures" "Hashing" (fun _ => none)
        (ResponseData.arr (some (some
          "Sure! Here\u0027s a question: What is a hash table?"))) =
      Except.error JsError.referenceError ∧
    generateQuestion "Data Structures" "Hashing" "medium" 0 0 (fun _ => none)
        (RemoteOutcome.success (ResponseData.arr (some (some
          "Sure! Here\u0027s a question: What is a hash table?")))) 0 =
      ⟨"Explain the concept of Hashing in Data Structures and its practical applications.",
        "Hashing is an important concept in Data Structures. It involves understanding the core principles and being able to apply them in real-world scenarios."⟩ ∧
    ("Explain the concept of Hashing in Data Structures and its practical applications." : String) ≠
      "Sure! Here\u0027s a question: What is a hash table?" :=
  ⟨rfl, rfl, rfl, by decide⟩

/-- C4 (code-bug evidence): the attempted history append of line 149 refers
to the undeclared identifier `previousQuestions`, so it raises a
`ReferenceError` instead of appending; no history is ever written — the only
declared history, `recentQuestions` (line 71), starts empty and is never
touched by any call. -/
theorem history_append_raises :
    handleResponse "Algorithms" "Sorting" (fun _ => none)
        (ResponseData.arr (some (some "What is a binary heap?"))) =
      Except.error JsError.referenceError ∧
    recentQuestions = [] ∧
    (∀ (hist : List (String × List String)) (t s diff : String) (vi seed : Nat)
        (jp : String → Option JsObj) (outcome : RemoteOutcome) (now : Nat),
      (generateQuestionWithHistory hist t s diff vi seed jp outcome now).2 = hist) :=
  ⟨rfl, rfl, fun _ _ _ _ _ _ _ _ _ => rfl⟩

/-- C5: in the catch handler of `generateQuestion`, an error carrying HTTP
status 503 yields the fixed "model is currently loading" pair; every other
error yields one of the exactly five templates (parameterized only by topic
and subTopic), selected by index `floor(nowMs / 1000) % 5` — a selection
that is a pure function of the current second; rejected remote calls route
through exactly this handler. -/
theorem handleError_selection (t s : String) (e : JsError) (now now2 : Nat) :
    (errStatus e = some 503 → handleError t s e now = loadingResult) ∧
    (errStatus e ≠ some 503 →
      handleError t s e now = selectedFallback t s now ∧
      handleError t s e now ∈ fallbackQuestions t s) ∧
    (fallbackQuestions t s).length = 5 ∧
    (now / 1000 = now2 / 1000 →
      handleError t s e now = handleError t s e now2) ∧
    (∀ (diff : String) (vi seed : Nat) (jp : String → Option JsObj),
      generateQuestion t s diff vi seed jp (RemoteOutcome.failure (some 503)) now =
        loadingResult) ∧
    (∀ (diff : String) (vi seed : Nat) (jp : String → Option JsObj)
        (st : Option Nat), st ≠ some 503 →
      generateQuestion t s diff vi seed jp (RemoteOutcome.failure st) now =
        selectedFallback t s now) := by
  refine ⟨?_, ?_, rfl, ?_, ?_, ?_⟩
  · intro h
    rw [handleError_eq, if_pos h]
  · intro h
    refine ⟨handleError_not503 t s now h, ?_⟩
    rw [handleError_not503 t s now h]
    exact selectedFallback_mem t s now
  · intro hsec
    rw [handleError_eq, handleError_eq, selectedFallback_congr t s hsec]
  · intro diff vi seed jp
    rw [generateQuestion_failure_eq, handleError_eq]
    simp [errStatus]
  · intro diff vi seed jp st hst
    rw [generateQuestion_failure_eq]
    exact handleError_not503 t s now (by simpa [errStatus] using hst)

/-- Witness for C5: a 503 rejection and a plain network failure at concrete
times. -/
theorem handleError_selection_witness :
    handleError "OS" "Paging" (JsError.httpError (some 503)) 0 = loadingResult ∧
    handleError "OS" "Paging" (JsError.httpError none) 12999 =
      selectedFallback "OS" "Paging" 12999 :=
  ⟨(handleError_selection "OS" "Paging" (JsError.httpError (some 503)) 0 0).1 rfl,
   ((handleError_selection "OS" "Paging" (JsError.httpError none) 12999 0).2.1
      (by decide)).1⟩

/-- C10: the parsed remote result is unreachable as a return value.  For
every response the try block accepts and parses (extraction and parse stage
both succeed, on the JSON path or the raw-text path), line 149's reference
to the undeclared `previousQuestions` throws, so `handleResponse` never
returns `ok` and `generateQuestion` returns the time-selected canned
template instead of the parsed pair; `recentQuestions`, the only declared
history, is never written or read. -/
theorem parsedResult_unreachable :
    (∀ (t s : String) (jp : String → Option JsObj) (d : ResponseData)
        (r : QuestionResult), handleResponse t s jp d ≠ Except.ok r) ∧
    (∀ (t s diff : String) (vi seed : Nat) (jp : String → Option JsObj)
        (d : ResponseData) (td : String) (r : QuestionResult) (now : Nat),
      extractText d = Except.ok td → parseStage t s jp td = Except.ok r →
      handleResponse t s jp d = Except.error JsError.referenceError ∧
      generateQuestion t s diff vi seed jp (RemoteOutcome.success d) now =
        selectedFallback t s now ∧
      generateQuestion t s diff vi seed jp (RemoteOutcome.success d) now ∈
        fallbackQuestions t s) ∧
    recentQuestions = [] ∧
    (∀ (hist : List (String × List String)) (t s diff : String) (vi seed : Nat)
        (jp : String → Option JsObj) (outcome : RemoteOutcome) (now : Nat),
      (generateQuestionWithHistory hist t s diff vi seed jp outcome now).2 = hist) := by
  refine ⟨?_, ?_, rfl, fun _ _ _ _ _ _ _ _ _ => rfl⟩
  · intro t s jp d r hc
    obtain ⟨e, he, _⟩ := handleResponse_error t s jp d
    rw [he] at hc
    simp at hc
  · intro t s diff vi seed jp d td r now h1 h2
    refine ⟨?_, generateQuestion_success_eq t s diff vi seed jp d now, ?_⟩
    · simp [handleResponse, h1, h2]
    · rw [generateQuestion_success_eq]
      exact selectedFallback_mem t s now

/-- Witness for C10: a concrete raw-text response that extracts and parses
successfully, at a concrete time. -/
theorem parsedResult_unreachable_witness :
    (handleResponse "JS" "Closures" (fun _ => none)
        (ResponseData.arr (some (some "What is a closure?"))) =
      Except.error JsError.referenceError ∧
    generateQuestion "JS" "Closures" "easy" 1 2 (fun _ => none)
        (RemoteOutcome.success (ResponseData.arr (some (some "What is a closure?"))))
        7000 =
      selectedFallback "JS" "Closures" 7000 ∧
    generateQuestion "JS" "Closures" "easy" 1 2 (fun _ => none)
        (RemoteOutcome.success (ResponseData.arr (some (some "What is a closure?"))))
        7000 ∈
      fallbackQuestions "JS" "Closures") ∧
    handleResponse "JS" "Closures" (fun _ => none)
        (ResponseData.arr (some (some "What is a closure?"))) ≠
      Except.ok ⟨"What is a closure?",
        "Please provide a comprehensive answer covering the main concepts."⟩ :=
  ⟨parsedResult_unreachable.2.1 "JS" "Closures" "easy" 1 2 (fun _ => none)
      (ResponseData.arr (some (some "What is a closure?"))) "What is a closure?"
      ⟨"What is a closure?",
        "Please provide a comprehensive answer covering the main concepts."⟩
      7000 rfl rfl,
   parsedResult_unreachable.1 "JS" "Closures" (fun _ => none)
      (ResponseData.arr (some (some "What is a closure?")))
      ⟨"What is a closure?",
        "Please provide a comprehensive answer covering the main concepts."⟩⟩

/-! ## Helper lemmas about the evaluation pipeline -/

theorem fallbackEvaluation_pos (u i : String) (h : (wordTokens i).length ≠ 0) :
    fallbackEvaluation u i =
      (let score := jsRoundQ
        ((((wordTokens i).filter (fun w => (wordTokens u).contains w)).length : ℚ) /
          ((wordTokens i).length : ℚ) * 100)
       ⟨"**Estimated Score: " ++ toString score ++
          "%** (Using fallback evaluation)\n\n" ++
        (if score > 70 then "Good! Your answer covers many key concepts."
         else if score > 40 then
           "You\u0027re on the right track, but could expand more on key concepts."
         else
           "Your answer needs more detail. Review the ideal answer for key points."),
        score⟩) := by
  simp only [fallbackEvaluation]
  rw [if_neg h]

theorem jsRoundQ_bounds {q : ℚ} (h1 : 0 ≤ q) (h2 : q ≤ 100) :
    0 ≤ jsRoundQ q ∧ jsRoundQ q ≤ 100 := by
  unfold jsRoundQ
  constructor
  · apply Int.le_floor.mpr
    push_cast
    linarith
  · have hf := Int.floor_lt.mpr (show q + 1/2 < ((101:ℤ):ℚ) by push_cast; linarith)
    omega

theorem fallbackEvaluation_score_bounds (u i : String) :
    0 ≤ (fallbackEvaluation u i).score ∧ (fallbackEvaluation u i).score ≤ 100 := by
  by_cases h : (wordTokens i).length = 0
  · simp only [fallbackEvaluation]
    rw [if_pos h]
    exact ⟨le_refl 0, by norm_num⟩
  · rw [fallbackEvaluation_pos u i h]
    have hm : (((wordTokens i).filter (fun w => (wordTokens u).contains w)).length : ℚ) ≤
        ((wordTokens i).length : ℚ) := by
      exact_mod_cast List.length_filter_le _ _
    have hlenpos : (0:ℚ) < ((wordTokens i).length : ℚ) := by
      exact_mod_cast Nat.pos_of_ne_zero h
    exact jsRoundQ_bounds (by positivity)
      (by rw [div_mul_eq_mul_div, div_le_iff hlenpos]; linarith)

theorem sumSq_prefix_le (b : List ℝ) (n : ℕ) :
    ∑ i in Finset.range n, b.getD i 0 ^ 2 ≤
      ∑ i in Finset.range b.length, b.getD i 0 ^ 2 := by
  rcases le_or_lt n b.length with h | h
  · exact Finset.sum_le_sum_of_subset_of_nonneg (Finset.range_subset.mpr h)
      (fun i _ _ => sq_nonneg _)
  · refine le_of_eq (Finset.sum_subset (Finset.range_subset.mpr h.le) ?_).symm
    intro x hx hnx
    have hlen : b.length ≤ x := by simpa using hnx
    rw [List.getD_eq_default _ _ hlen]
    simp

theorem sqrt_step (a b : List ℝ) :
    Real.sqrt (∑ i in Finset.range a.length, a.getD i 0 ^ 2) *
      Real.sqrt (∑ i in Finset.range a.length, b.getD i 0 ^ 2) ≤
    magnitude a * magnitude b := by
  unfold magnitude
  exact mul_le_mul_of_nonneg_left (Real.sqrt_le_sqrt (sumSq_prefix_le b a.length))
    (Real.sqrt_nonneg _)

theorem dotp_le (a b : List ℝ) : dotp a b ≤ magnitude a * magnitude b := by
  unfold dotp
  exact (Real.sum_mul_le_sqrt_mul_sqrt (Finset.range a.length)
    (fun i => a.getD i 0) (fun i => b.getD i 0)).trans (sqrt_step a b)

theorem neg_dotp_le (a b : List ℝ) : -dotp a b ≤ magnitude a * magnitude b := by
  have h := Real.sum_mul_le_sqrt_mul_sqrt (Finset.range a.length)
    (fun i => a.getD i 0) (fun i => -(b.getD i 0))
  simp only [mul_neg, neg_sq, Finset.sum_neg_distrib] at h
  unfold dotp
  exact h.trans (sqrt_step a b)

theorem abs_dotp_le (a b : List ℝ) : |dotp a b| ≤ magnitude a * magnitude b :=
  abs_le.mpr ⟨neg_le.mp (neg_dotp_le a b), dotp_le a b⟩

/-- Cosine similarity of any two vectors lies in `[-1, 1]` (with the
division-by-zero convention mapping degenerate vectors to `0`). -/
theorem cos_sim_bounds (a b : List ℝ) : -1 ≤ cos_sim a b ∧ cos_sim a b ≤ 1 := by
  unfold cos_sim
  have hm : 0 ≤ magnitude a * magnitude b :=
    mul_nonneg (Real.sqrt_nonneg _) (Real.sqrt_nonneg _)
  rcases eq_or_lt_of_le hm with h0 | hpos
  · rw [← h0, div_zero]
    norm_num
  · have h1 : |dotp a b / (magnitude a * magnitude b)| ≤ 1 := by
      rw [abs_div, abs_of_pos hpos, div_le_one hpos]
      exact abs_dotp_le a b
    exact abs_le.mp h1

theorem jsRound_bounds {x : ℝ} (h1 : -1 ≤ x) (h2 : x ≤ 1) :
    -100 ≤ jsRound (x * 100) ∧ jsRound (x * 100) ≤ 100 := by
  unfold jsRound
  constructor
  · apply Int.le_floor.mpr
    push_cast
    linarith
  · have hf := Int.floor_lt.mpr (show x * 100 + 1/2 < ((101:ℤ):ℝ) by push_cast; linarith)
    omega

/-! ## Claim theorems: answer evaluation -/

/-- C6: whenever `userAnswer` is empty or missing, or `idealAnswer` is empty
or missing, or `idealAnswer` equals the sentinel `"N/A"`, `evaluateAnswer`
returns exactly the fixed result without invoking the embedding model: the
result is the same for every load outcome, and the pipeline state is
returned untouched (no load attempt happens). -/
theorem evaluateAnswer_early_return (lo : Except String Extractor)
    (s : PipelineState Extractor) (u i : Option String)
    (h : jsFalsyStr u = true ∨ jsFalsyStr i = true ∨ i = some "N/A") :
    evaluateAnswer lo s u i = (⟨"Could not evaluate answer.", 0⟩, s) := by
  have hcond : (jsFalsyStr u || jsFalsyStr i || i == some "N/A") = true := by
    rcases h with h | h | h <;> simp [h]
  simp only [evaluateAnswer]
  rw [if_pos hcond]

/-- Witness for C6: the three early-return situations at concrete inputs. -/
theorem evaluateAnswer_early_return_witness :
    evaluateAnswer (Except.error "no model")
        (⟨none, false, none⟩ : PipelineState Extractor) (some "") (some "x") =
      (⟨"Could not evaluate answer.", 0⟩, ⟨none, false, none⟩) ∧
    evaluateAnswer (Except.error "no model")
        (⟨none, false, none⟩ : PipelineState Extractor) (some "x") (some "") =
      (⟨"Could not evaluate answer.", 0⟩, ⟨none, false, none⟩) ∧
    evaluateAnswer (Except.error "no model")
        (⟨none, false, none⟩ : PipelineState Extractor) (some "x") (some "N/A") =
      (⟨"Could not evaluate answer.", 0⟩, ⟨none, false, none⟩) :=
  ⟨evaluateAnswer_early_return _ _ _ _ (Or.inl rfl),
   evaluateAnswer_early_return _ _ _ _ (Or.inr (Or.inl rfl)),
   evaluateAnswer_early_return _ _ _ _ (Or.inr (Or.inr rfl))⟩

/-- C7 counterexample: the claim is false as stated (for **every** pair of
inputs).  With the model unavailable (`getInstance` returns null) and
`userAnswer = ""`, the guard of line 202 fires first, so `evaluateAnswer`
returns the fixed "Could not evaluate answer." result, while
`fallbackEvaluation("", "x")` returns an "Estimated Score: 0%" result with
different feedback text. -/
theorem evaluateAnswer_unavailable_mismatch :
    (getInstance (Except.error "load failed")
        (⟨none, true, none⟩ : PipelineState Extractor)).1 = none ∧
    (evaluateAnswer (Except.error "load failed") ⟨none, true, none⟩
        (some "") (some "x")).1 = ⟨"Could not evaluate answer.", 0⟩ ∧
    fallbackEvaluation "" "x" =
      ⟨"**Estimated Score: 0%** (Using fallback evaluation)\n\nYour answer needs more detail. Review the ideal answer for key points.", 0⟩ ∧
    (evaluateAnswer (Except.error "load failed") ⟨none, true, none⟩
        (some "") (some "x")).1 ≠ fallbackEvaluation "" "x" := by
  have h2 : (evaluateAnswer (Except.error "load failed")
      (⟨none, true, none⟩ : PipelineState Extractor) (some "") (some "x")).1 =
      ⟨"Could not evaluate answer.", 0⟩ := rfl
  have h3 : fallbackEvaluation "" "x" =
      ⟨"**Estimated Score: 0%** (Using fallback evaluation)\n\nYour answer needs more detail. Review the ideal answer for key points.", 0⟩ := by
    rw [fallbackEvaluation_pos "" "x" (by decide)]
    rw [show ((wordTokens "x").filter
        (fun w => (wordTokens "").contains w)).length = 0 from by decide]
    rw [show (wordTokens "x").length = 1 from by decide]
    norm_num [jsRoundQ]
    decide
  refine ⟨rfl, h2, h3, ?_⟩
  rw [h2, h3]
  decide

/-- C7 (amended): for every pair of inputs that passes the emptiness/`"N/A"`
guard, whenever `getInstance` returns null, `evaluateAnswer` returns exactly
`fallbackEvaluation(userAnswer, idealAnswer)` together with the post-call
pipeline state.  (Inputs caught by the guard return the fixed
"Could not evaluate answer." result instead.) -/
theorem evaluateAnswer_unavailable_delegates (lo : Except String Extractor)
    (s : PipelineState Extractor) (u i : Option String)
    (hu : jsFalsyStr u = false) (hi : jsFalsyStr i = false)
    (hna : i ≠ some "N/A") (hnone : (getInstance lo s).1 = none) :
    evaluateAnswer lo s u i =
      (fallbackEvaluation (u.getD "") (i.getD ""), (getInstance lo s).2) := by
  have hcond : (jsFalsyStr u || jsFalsyStr i || i == some "N/A") = false := by
    simp [hu, hi, hna]
  simp only [evaluateAnswer]
  rw [if_neg (by simp [hcond]), hnone]

/-- Witness for C7 (amended): concrete inputs passing the guard, pipeline in
the loading state (which returns a null instance without a new attempt). -/
theorem evaluateAnswer_unavailable_delegates_witness :
    evaluateAnswer (Except.error "load failed")
        (⟨none, true, none⟩ : PipelineState Extractor)
        (some "alpha") (some "beta") =
      (fallbackEvaluation "alpha" "beta", ⟨none, true, none⟩) :=
  evaluateAnswer_unavailable_delegates _ _ _ _ rfl rfl (by decide) rfl

/-- C8: `fallbackEvaluation` tokenizes both inputs into lowercase word runs;
a token-free ideal answer short-circuits to the fixed zero result; otherwise
the score is `round(100 * overlap / ideal-token-count)` with the overlap
counted over the ideal tokens (duplicates kept) against the set of user
tokens; and the spec's example scores `round(400/9) = 44`, landing in the
partial-credit feedback tier. -/
theorem fallbackEvaluation_spec :
    (∀ u i : String, wordTokens i = [] →
      fallbackEvaluation u i = ⟨"Could not evaluate answer.", 0⟩) ∧
    (∀ u i : String, wordTokens i ≠ [] →
      (fallbackEvaluation u i).score =
        jsRoundQ (100 *
          (((wordTokens i).filter (fun w => (wordTokens u).contains w)).length : ℚ) /
          ((wordTokens i).length : ℚ))) ∧
    (fallbackEvaluation "gradient descent minimizes loss"
        "gradient descent is an optimization algorithm that minimizes loss") =
      ⟨"**Estimated Score: 44%** (Using fallback evaluation)\n\nYou\u0027re on the right track, but could expand more on key concepts.", 44⟩ ∧
    jsRoundQ (100 * (4:ℚ) / 9) = 44 ∧ ((44:ℤ) > 40 ∧ ¬((44:ℤ) > 70)) := by
  refine ⟨?_, ?_, ?_, by norm_num [jsRoundQ], by norm_num, by norm_num⟩
  · intro u i h
    have hlen : (wordTokens i).length = 0 := by rw [h]; rfl
    simp only [fallbackEvaluation]
    rw [if_pos hlen]
  · intro u i h
    have hlen : (wordTokens i).length ≠ 0 :=
      fun hc => h (List.length_eq_zero.mp hc)
    rw [fallbackEvaluation_pos u i hlen]
    show jsRoundQ _ = jsRoundQ _
    congr 1
    ring
  · rw [fallbackEvaluation_pos _ _ (by decide)]
    rw [show ((wordTokens "gradient descent is an optimization algorithm that minimizes loss").filter
        (fun w => (wordTokens "gradient descent minimizes loss").contains w)).length = 4
      from by decide]
    rw [show (wordTokens "gradient descent is an optimization algorithm that minimizes loss").length = 9
      from by decide]
    norm_num [jsRoundQ]
    decide

/-- Witness for C8: the token-free case and the formula case at concrete
inputs. -/
theorem fallbackEvaluation_spec_witness :
    fallbackEvaluation "x" "!!" = ⟨"Could not evaluate answer.", 0⟩ ∧
    (fallbackEvaluation "alpha" "alpha beta").score =
      jsRoundQ (100 *
        (((wordTokens "alpha beta").filter
          (fun w => (wordTokens "alpha").contains w)).length : ℚ) /
        ((wordTokens "alpha beta").length : ℚ)) :=
  ⟨fallbackEvaluation_spec.1 "x" "!!" (by decide),
   fallbackEvaluation_spec.2.1 "alpha" "alpha beta" (by decide)⟩

/-- An extractor behaviour allowed by the claim's quantification ("any
vectors it may return"): it embeds the user answer and the ideal answer as
opposite unit vectors. -/
noncomputable def oppositeExtractor : Extractor :=
  fun s => Except.ok (if s == "a" then [(1:ℝ), 0] else [(-1:ℝ), 0])

/-- C9 counterexample: the claim is false as stated.  With the embedding
model available and an extractor returning opposite unit vectors for the two
answers, the cosine similarity is exactly `-1` and the returned score is
`Math.round(-1 * 100) = -100`, which is not in `[0, 100]`. -/
theorem evaluateAnswer_score_negative :
    (evaluateAnswer (Except.ok oppositeExtractor)
        (⟨some oppositeExtractor, false, none⟩ : PipelineState Extractor)
        (some "a") (some "b")).1.score = -100 ∧
    ¬(0 ≤ (evaluateAnswer (Except.ok oppositeExtractor)
        (⟨some oppositeExtractor, false, none⟩ : PipelineState Extractor)
        (some "a") (some "b")).1.score) := by
  have hval : (evaluateAnswer (Except.ok oppositeExtractor)
      (⟨some oppositeExtractor, false, none⟩ : PipelineState Extractor)
      (some "a") (some "b")).1.score =
      jsRound (cos_sim [(1:ℝ), 0] [(-1:ℝ), 0] * 100) := rfl
  have hcs : cos_sim [(1:ℝ), 0] [(-1:ℝ), 0] = -1 := by
    unfold cos_sim dotp magnitude
    norm_num [Finset.sum_range_succ, List.getD]
  have h100 : jsRound ((-1:ℝ) * 100) = -100 := by
    norm_num [jsRound]
  constructor
  · rw [hval, hcs, h100]
  · rw [hval, hcs, h100]
    norm_num

/-- C9 (amended): the score returned by `evaluateAnswer` is always an
integer in `[-100, 100]` — for every input pair, pipeline state, load
outcome and extractor behaviour (any vectors, any rejection) — and on the
fallback and early-return paths it is in `[0, 100]`; the embedding path can
reach negative values (see the counterexample), bounded below by `-100`
because cosine similarity lies in `[-1, 1]`. -/
theorem evaluateAnswer_score_range (lo : Except String Extractor)
    (s : PipelineState Extractor) (u i : Option String) :
    (-100 ≤ (evaluateAnswer lo s u i).1.score ∧
      (evaluateAnswer lo s u i).1.score ≤ 100) ∧
    (∀ u2 i2 : String, 0 ≤ (fallbackEvaluation u2 i2).score ∧
      (fallbackEvaluation u2 i2).score ≤ 100) := by
  refine ⟨?_, fallbackEvaluation_score_bounds⟩
  simp only [evaluateAnswer]
  split
  · exact ⟨by norm_num, by norm_num⟩
  · split
    · have hb := fallbackEvaluation_score_bounds (u.getD "") (i.getD "")
      exact ⟨by linarith [hb.1], hb.2⟩
    · split
      · rename_i ue ie hue hie
        exact jsRound_bounds (cos_sim_bounds ue ie).1 (cos_sim_bounds ue ie).2
      · have hb := fallbackEvaluation_score_bounds (u.getD "") (i.getD "")
        exact ⟨by linarith [hb.1], hb.2⟩

end AIMock
